import Mathlib

/-!
Verification development for the rescue-site backend (Express + Mongoose).

The repository ships two variants of `server.js`: one storing images on an
external host (Cloudinary) and one storing them inline as Base64 strings in
MongoDB.  The definitions below are a shallow embedding of the inline-storage
variant's handlers (the authoritative one cited by most claims), together
with the Mongoose data model, the Telegram notification wrapper, and a
spec-modelled external image host for the Cloudinary strategy.

Conventions of the embedding:
* JavaScript request fields that can be `undefined` are `Option String`;
  JS truthiness on such a field is `truthy` below (absent and `""` are falsy).
* `parseFloat` is modelled over `ℚ` with an explicit `nan` value
  (`JsNum.nan`); the model covers decimal literals with optional sign,
  fraction and exponent, which is the fragment the handlers can receive.
* MongoDB is a pure record store (`Store`); document ids are `Nat` minted
  from a counter.  `{ timestamps: true }` is modelled by explicit
  `createdAt` / `updatedAt` fields set from a `now : Nat` parameter.
* The multer staging directory is the list `Sys.tempFiles` of staged paths.
* Exceptions are `Except String`; a handler's `try/catch` appears as an
  explicit match producing the 500 response of the catch block.
-/

/-- JavaScript number restricted to the values the handlers produce:
either a rational or `NaN`. -/
inductive JsNum where
  | nan : JsNum
  | val : ℚ → JsNum
deriving DecidableEq, Repr

/-- JS truthiness of a possibly-absent string field (`undefined` and `""`
are falsy; every non-empty string, including `"0"`, is truthy). -/
def truthy : Option String → Bool
  | none => false
  | some s => s ≠ ""

/-- Value of a list of decimal digit characters, most significant first. -/
def digitsVal (ds : List Char) : Nat :=
  ds.foldl (fun a c => a * 10 + (c.toNat - 48)) 0

/-- `parseFloat` from JavaScript, modelled for decimal literals: skips
leading whitespace, reads an optional sign, integer digits, an optional
fraction and an optional exponent, and returns `nan` when no digit is
found.  (The `Infinity` and hexadecimal forms never reach this code path
and are not modelled.) -/
def parseFloat (s : String) : JsNum :=
  let cs := s.data.dropWhile (fun c => c.isWhitespace)
  let signAndRest : ℚ × List Char :=
    match cs with
    | '-' :: r => (-1, r)
    | '+' :: r => (1, r)
    | _ => (1, cs)
  let sign := signAndRest.1
  let cs1 := signAndRest.2
  let intDs := cs1.takeWhile (fun c => c.isDigit)
  let cs2 := cs1.dropWhile (fun c => c.isDigit)
  let fracDs : List Char :=
    match cs2 with
    | '.' :: r => r.takeWhile (fun c => c.isDigit)
    | _ => []
  let cs3 : List Char :=
    match cs2 with
    | '.' :: r => r.dropWhile (fun c => c.isDigit)
    | _ => cs2
  if intDs.isEmpty ∧ fracDs.isEmpty then JsNum.nan
  else
    let base : ℚ :=
      (digitsVal intDs : ℚ) + (digitsVal fracDs : ℚ) / ((10 : ℚ) ^ fracDs.length)
    let withExp : ℚ :=
      match cs3 with
      | 'e' :: r =>
          match r with
          | '-' :: r2 =>
              let eds := r2.takeWhile (fun c => c.isDigit)
              if eds.isEmpty then base else base / ((10 : ℚ) ^ digitsVal eds)
          | '+' :: r2 =>
              let eds := r2.takeWhile (fun c => c.isDigit)
              if eds.isEmpty then base else base * ((10 : ℚ) ^ digitsVal eds)
          | _ =>
              let eds := r.takeWhile (fun c => c.isDigit)
              if eds.isEmpty then base else base * ((10 : ℚ) ^ digitsVal eds)
      | 'E' :: r =>
          match r with
          | '-' :: r2 =>
              let eds := r2.takeWhile (fun c => c.isDigit)
              if eds.isEmpty then base else base / ((10 : ℚ) ^ digitsVal eds)
          | '+' :: r2 =>
              let eds := r2.takeWhile (fun c => c.isDigit)
              if eds.isEmpty then base else base * ((10 : ℚ) ^ digitsVal eds)
          | _ =>
              let eds := r.takeWhile (fun c => c.isDigit)
              if eds.isEmpty then base else base * ((10 : ℚ) ^ digitsVal eds)
      | _ => base
    JsNum.val (sign * withExp)

/-- The Base64 alphabet, as used by `Buffer.toString('base64')`. -/
def b64Char (n : Nat) : Char :=
  if n < 26 then Char.ofNat (65 + n)
  else if n < 52 then Char.ofNat (97 + (n - 26))
  else if n < 62 then Char.ofNat (48 + (n - 52))
  else if n = 62 then '+'
  else '/'

/-- Sextet value of a Base64 alphabet character (inverse of `b64Char`). -/
def b64Val (c : Char) : Nat :=
  if 65 ≤ c.toNat ∧ c.toNat ≤ 90 then c.toNat - 65
  else if 97 ≤ c.toNat ∧ c.toNat ≤ 122 then c.toNat - 97 + 26
  else if 48 ≤ c.toNat ∧ c.toNat ≤ 57 then c.toNat - 48 + 52
  else if c = '+' then 62
  else if c = '/' then 63
  else 0

/-- Base64 encoding of a byte list with `=` padding, as produced by
`Buffer.from(bytes).toString('base64')`. -/
def encB64 : List Nat → List Char
  | [] => []
  | [a] => [b64Char (a / 4), b64Char ((a % 4) * 16), '=', '=']
  | [a, b] =>
      [b64Char (a / 4), b64Char ((a % 4) * 16 + b / 16), b64Char ((b % 16) * 4), '=']
  | a :: b :: c :: rest =>
      b64Char (a / 4) :: b64Char ((a % 4) * 16 + b / 16) ::
        b64Char ((b % 16) * 4 + c / 64) :: b64Char (c % 64) :: encB64 rest

/-- Base64 decoding of well-formed (padded) Base64 text, as performed by
`Buffer.from(s, 'base64')` on the strings this application stores. -/
def decB64 : List Char → List Nat
  | c0 :: c1 :: c2 :: c3 :: rest =>
      if c2 = '=' then [b64Val c0 * 4 + b64Val c1 / 16]
      else if c3 = '=' then
        [b64Val c0 * 4 + b64Val c1 / 16, (b64Val c1 % 16) * 16 + b64Val c2 / 4]
      else
        (b64Val c0 * 4 + b64Val c1 / 16) ::
          ((b64Val c1 % 16) * 16 + b64Val c2 / 4) ::
          ((b64Val c2 % 4) * 64 + b64Val c3) :: decB64 rest
  | _ => []

theorem b64Val_b64Char_fin : ∀ i : Fin 64, b64Val (b64Char i.val) = i.val := by
  decide

theorem b64Val_b64Char {n : Nat} (h : n < 64) : b64Val (b64Char n) = n :=
  b64Val_b64Char_fin ⟨n, h⟩

theorem b64Char_ne_pad_fin : ∀ i : Fin 64, b64Char i.val ≠ '=' := by
  decide

theorem b64Char_ne_pad {n : Nat} (h : n < 64) : b64Char n ≠ '=' :=
  b64Char_ne_pad_fin ⟨n, h⟩

/-- Decoding inverts encoding on byte lists. -/
theorem decB64_encB64 : ∀ bs : List Nat, (∀ x ∈ bs, x < 256) →
    decB64 (encB64 bs) = bs
  | [], _ => rfl
  | [a], h => by
      have ha : a < 256 := h a (by simp)
      have h0 : a / 4 < 64 := by omega
      have h1 : (a % 4) * 16 < 64 := by omega
      simp [encB64, decB64, b64Val_b64Char h0, b64Val_b64Char h1]
      omega
  | [a, b], h => by
      have ha : a < 256 := h a (by simp)
      have hb : b < 256 := h b (by simp)
      have h0 : a / 4 < 64 := by omega
      have h1 : (a % 4) * 16 + b / 16 < 64 := by omega
      have h2 : (b % 16) * 4 < 64 := by omega
      simp [encB64, decB64, b64Val_b64Char h0, b64Val_b64Char h1, b64Val_b64Char h2,
        b64Char_ne_pad h2]
      omega
  | [a, b, c], h => by
      have ha : a < 256 := h a (by simp)
      have hb : b < 256 := h b (by simp)
      have hc : c < 256 := h c (by simp)
      have h0 : a / 4 < 64 := by omega
      have h1 : (a % 4) * 16 + b / 16 < 64 := by omega
      have h2 : (b % 16) * 4 + c / 64 < 64 := by omega
      have h3 : c % 64 < 64 := by omega
      simp [encB64, decB64, b64Val_b64Char h0, b64Val_b64Char h1, b64Val_b64Char h2,
        b64Val_b64Char h3, b64Char_ne_pad h2, b64Char_ne_pad h3]
      omega
  | a :: b :: c :: d :: rest, h => by
      have ha : a < 256 := h a (by simp)
      have hb : b < 256 := h b (by simp)
      have hc : c < 256 := h c (by simp)
      have h0 : a / 4 < 64 := by omega
      have h1 : (a % 4) * 16 + b / 16 < 64 := by omega
      have h2 : (b % 16) * 4 + c / 64 < 64 := by omega
      have h3 : c % 64 < 64 := by omega
      have ih := decB64_encB64 (d :: rest) (by
        intro x hx
        apply h
        simp only [List.mem_cons] at hx ⊢
        tauto)
      show decB64 (b64Char (a / 4) :: b64Char ((a % 4) * 16 + b / 16) ::
        b64Char ((b % 16) * 4 + c / 64) :: b64Char (c % 64) :: encB64 (d :: rest)) =
        a :: b :: c :: d :: rest
      simp [decB64, b64Val_b64Char h0, b64Val_b64Char h1, b64Val_b64Char h2,
        b64Val_b64Char h3, b64Char_ne_pad h2, b64Char_ne_pad h3, ih]
      omega

/-! ## Data model (models/PaymentSubmission.js, models/Chat.js) -/

/-- One entry of `chatSchema.messages` (models/Chat.js). -/
structure ChatMessage where
  sender : String
  text : Option String
  time : Nat
deriving DecidableEq, Repr

/-- A `Chat` document.  `name`/`email` are `Option` because the schema does
not require them and `POST /chat` copies them from the request unchecked. -/
structure ChatRec where
  id : Nat
  name : Option String
  email : Option String
  messages : List ChatMessage
  createdAt : Nat
  updatedAt : Nat
deriving DecidableEq, Repr

/-- A `PaymentSubmission` document (inline-image schema: `giftCardImage` is
a Base64 string, `giftCardImageType` its content type, `""` when unset). -/
structure Submission where
  id : Nat
  name : String
  email : String
  amount : JsNum
  note : Option String
  paymentMethod : Option String
  giftCardImage : String
  giftCardImageType : String
  status : String
  createdAt : Nat
  updatedAt : Nat
deriving DecidableEq, Repr

/-- The document store: the two collections the claims are about, plus the
id counters MongoDB would mint `_id`s from. -/
structure Store where
  subs : List Submission
  chats : List ChatRec
  nextSubId : Nat
  nextChatId : Nat
deriving DecidableEq, Repr

/-- Store lookup by `_id` (`findById` / `findByIdAndUpdate` query part). -/
def lookupSub (st : Store) (id : Nat) : Option Submission :=
  st.subs.find? (fun s => s.id == id)

/-- Store lookup of a chat by `_id`. -/
def lookupChat (st : Store) (id : Nat) : Option ChatRec :=
  st.chats.find? (fun c => c.id == id)

/-- The filter `{ email }` of `Chat.findOne({ email })`.  Mongoose strips
`undefined` values from query filters, so an absent email makes the filter
`{}`, which matches every document. -/
def chatMatches (email : Option String) (c : ChatRec) : Bool :=
  match email with
  | none => true
  | some e => c.email == some e

/-- Server-side state: the document store plus the multer staging
directory `/tmp/uploads` (list of staged file paths). -/
structure Sys where
  store : Store
  tempFiles : List Nat
deriving DecidableEq, Repr

/-- A file staged by multer before the handler runs. -/
structure StagedFile where
  path : Nat
  bytes : List Nat
  mimetype : String
deriving DecidableEq, Repr

/-- Multipart body of `POST /submit-giftcard`. -/
structure SubmitReq where
  name : Option String
  email : Option String
  amount : Option String
  note : Option String
  paymentMethod : Option String
  file : Option StagedFile
deriving DecidableEq, Repr

/-- JSON body of `POST /chat`. -/
structure ChatReq where
  name : Option String
  email : Option String
  message : Option String
deriving DecidableEq, Repr

/-! ## Notification fan-out (sendToTelegram, server.js) -/

/-- Behaviour of the Telegram transport for one delivery:
`unconfigured` is `!bot || !TELEGRAM_CHAT_ID`, `healthy` delivers,
`unreachable` makes the bot API call throw. -/
inductive Transport where
  | unconfigured
  | healthy
  | unreachable
deriving DecidableEq, Repr

/-- The bot API call (`bot.sendPhoto` / `bot.sendMessage`): throws when the
destination is unreachable. -/
def botSendAttempt (t : Transport) : Except String Unit :=
  match t with
  | Transport.unreachable => Except.error "EFATAL: Telegram network error"
  | _ => Except.ok ()

/-- Body of `sendToTelegram`'s `try` block: if the transport is not
configured it only logs and returns; otherwise it performs the (fallible)
bot API call. -/
def sendToTelegramTry (t : Transport) (message : String)
    (imageBase64 : Option String) (imageType : Option String) : Except String Unit :=
  if t = Transport.unconfigured then Except.ok ()
  else botSendAttempt t

/-- `sendToTelegram(message, imageBase64, imageType)`: the whole body is
wrapped in `try { ... } catch (error) { console.error(...) }`, so every
delivery failure is swallowed. -/
def sendToTelegram (t : Transport) (message : String)
    (imageBase64 : Option String) (imageType : Option String) : Except String Unit :=
  match sendToTelegramTry t message imageBase64 imageType with
  | Except.ok u => Except.ok u
  | Except.error _e => Except.ok ()

/-- Template-literal interpolation of a possibly-`undefined` value. -/
def jsShow (o : Option String) : String := o.getD "undefined"

/-- `s.substring(0, n)` on a string that is known to be defined. -/
def jsSubstring (s : String) (n : Nat) : String := String.mk (s.data.take n)

/-- The `TypeError` message thrown by `undefined.substring(...)`. -/
def undefinedSubstringError : String :=
  "Cannot read properties of undefined (reading 'substring')"

/-- Rendering of a JS number into a template literal. -/
def jsNumShow : JsNum → String
  | JsNum.nan => "NaN"
  | JsNum.val q => toString q

/-- `formatChatForTelegram(chat)`: interpolates the chat fields and
`lastMessage.text.substring(0, 200)`; throws a `TypeError` when the last
message exists but its `text` is `undefined`. -/
def formatChatForTelegram (chat : ChatRec) : Except String String :=
  match chat.messages.getLast? with
  | none =>
      Except.ok ("New Chat Message From: " ++ jsShow chat.name ++ " Email: " ++
        jsShow chat.email ++ " Message: No message Chat ID: " ++ toString chat.id)
  | some m =>
      match m.text with
      | none => Except.error undefinedSubstringError
      | some txt =>
          Except.ok ("New Chat Message From: " ++ jsShow chat.name ++ " Email: " ++
            jsShow chat.email ++ " Message: " ++ jsSubstring txt 200 ++
            " Chat ID: " ++ toString chat.id)

/-- `formatGiftCardForTelegram(submission)`: never throws (`note` is used
behind a conditional). -/
def formatGiftCardForTelegram (sub : Submission) : String :=
  "New Gift Card Submission From: " ++ sub.name ++ " Email: " ++ sub.email ++
    " Amount: $" ++ jsNumShow sub.amount ++ " Note: " ++
    (match sub.note with
     | some n => jsSubstring n 100
     | none => "No additional note") ++
    " Submission ID: " ++ toString sub.id

/-- The admin-reply confirmation text of `POST /chat/:id/reply`: uses
`req.body.message.substring(0, 100)`, so it throws when `message` is
absent. -/
def formatAdminReply (chat : ChatRec) (message : Option String) : Except String String :=
  match message with
  | none => Except.error undefinedSubstringError
  | some m =>
      Except.ok ("Admin Reply Sent To: " ++ jsShow chat.name ++ " Email: " ++
        jsShow chat.email ++ " Message: " ++ jsSubstring m 100)

/-- The status-update notification text of `PUT /giftcard-submissions/:id`
(`status.toUpperCase()` on the supplied status string). -/
def formatStatusUpdate (sub : Submission) (status : String) : String :=
  "Gift Card Status Updated From: " ++ sub.name ++ " Amount: $" ++
    jsNumShow sub.amount ++ " Status: " ++ status.toUpper ++
    " ID: " ++ toString sub.id

/-! ## HTTP layer -/

/-- Response bodies the modelled endpoints can produce. -/
inductive RespBody where
  | errorMsg (msg : String)
  | submitOk (message : String) (submission : Submission)
  | subJson (submission : Submission)
  | chatJson (chat : ChatRec)
  | imageBytes (data : List Nat) (contentType : String)
deriving DecidableEq, Repr

/-- An HTTP response: status code and JSON/body payload. -/
structure HttpResponse where
  status : Nat
  body : RespBody
deriving DecidableEq, Repr

/-- Observable side effects of a handler, in execution order. -/
inductive Event where
  | dbWrite (collection : String) (id : Nat)
  | notify (delivered : Bool)
deriving DecidableEq, Repr

/-- The event recorded for a call to `sendToTelegram`. -/
def notifyEvent (t : Transport) : Event := Event.notify (t == Transport.healthy)

/-- Result of running one handler. -/
structure HandlerResult where
  sys : Sys
  response : HttpResponse
  events : List Event
deriving DecidableEq, Repr

/-- Image URL minted for a stored submission
(`/api/giftcard-image/${submission._id}`). -/
def giftcardImageUrl (id : Nat) : String := "/api/giftcard-image/" ++ toString id

/-- `GET /api/giftcard-image/:id` (server.js, Base64 variant): 404 when the
submission is missing or its `giftCardImage` field is falsy; otherwise
decodes the Base64 field and serves it with the stored content type,
falling back to `image/jpeg`. -/
def getGiftcardImage (st : Store) (id : Nat) : HttpResponse :=
  match lookupSub st id with
  | none => { status := 404, body := RespBody.errorMsg "Image not found" }
  | some sub =>
      if sub.giftCardImage = "" then
        { status := 404, body := RespBody.errorMsg "Image not found" }
      else
        { status := 200,
          body := RespBody.imageBytes (decB64 sub.giftCardImage.data)
            (if sub.giftCardImageType = "" then "image/jpeg" else sub.giftCardImageType) }

/-- `POST /submit-giftcard` (server.js, Base64 variant).  `dbOk` models
whether `PaymentSubmission.create` succeeds or throws a storage error.
Multer has already staged `req.file` (when present) into `sys.tempFiles`.
Mirrors the handler line by line: validate (early `return` without
cleanup), read and Base64-encode the staged file, unlink it, create the
document with `status: 'pending'`, `await sendToTelegram(...)`, respond. -/
def handleSubmitGiftcard (t : Transport) (dbOk : Bool) (sys : Sys)
    (req : SubmitReq) (now : Nat) : HandlerResult :=
  match req.file with
  | none =>
      { sys := sys,
        response := { status := 400, body := RespBody.errorMsg "Missing required fields" },
        events := [] }
  | some f =>
      if ¬(truthy req.name ∧ truthy req.email ∧ truthy req.amount) then
        { sys := sys,
          response := { status := 400, body := RespBody.errorMsg "Missing required fields" },
          events := [] }
      else
        let base64Image := String.mk (encB64 f.bytes)
        let imageType := f.mimetype
        let tempFiles1 := sys.tempFiles.filter (fun p => p != f.path)
        if dbOk then
          let submission : Submission :=
            { id := sys.store.nextSubId,
              name := (req.name).getD "",
              email := (req.email).getD "",
              amount := parseFloat ((req.amount).getD ""),
              note := req.note,
              paymentMethod := req.paymentMethod,
              giftCardImage := base64Image,
              giftCardImageType := imageType,
              status := "pending",
              createdAt := now,
              updatedAt := now }
          let st1 : Store :=
            { sys.store with
                subs := sys.store.subs ++ [submission],
                nextSubId := sys.store.nextSubId + 1 }
          match sendToTelegram t (formatGiftCardForTelegram submission)
              (some base64Image) (some imageType) with
          | Except.ok _ =>
              { sys := { store := st1, tempFiles := tempFiles1 },
                response :=
                  { status := 200,
                    body := RespBody.submitOk
                      "Gift card submitted successfully! We will verify it shortly."
                      { submission with giftCardImage := giftcardImageUrl submission.id } },
                events := [Event.dbWrite "PaymentSubmission" submission.id, notifyEvent t] }
          | Except.error e =>
              { sys := { store := st1, tempFiles := tempFiles1 },
                response := { status := 500, body := RespBody.errorMsg e },
                events := [Event.dbWrite "PaymentSubmission" submission.id] }
        else
          { sys := { store := sys.store, tempFiles := tempFiles1 },
            response := { status := 500, body := RespBody.errorMsg "storage error" },
            events := [] }

/-- `PUT /giftcard-submissions/:id` (server.js).  `findByIdAndUpdate(id,
{ status }, { new: true })` runs no schema validators (Mongoose update
validators are off by default) and, because of `{ timestamps: true }`,
refreshes `updatedAt`.  A missing id yields 404 and no write. -/
def handleUpdateStatus (t : Transport) (sys : Sys) (id : Nat) (status : String)
    (now : Nat) : HandlerResult :=
  match lookupSub sys.store id with
  | none =>
      { sys := sys,
        response := { status := 404, body := RespBody.errorMsg "Submission not found" },
        events := [] }
  | some old =>
      let updated : Submission := { old with status := status, updatedAt := now }
      let st1 : Store :=
        { sys.store with
            subs := sys.store.subs.map (fun s => if s.id == id then updated else s) }
      match sendToTelegram t (formatStatusUpdate updated status) none none with
      | Except.ok _ =>
          { sys := { sys with store := st1 },
            response := { status := 200, body := RespBody.subJson updated },
            events := [Event.dbWrite "PaymentSubmission" id, notifyEvent t] }
      | Except.error e =>
          { sys := { sys with store := st1 },
            response := { status := 500, body := RespBody.errorMsg e },
            events := [Event.dbWrite "PaymentSubmission" id] }

/-- Common tail of the chat handlers: `if (bot && TELEGRAM_CHAT_ID) {
... await sendToTelegram(...) } res.json(...)`.  The notification text
`fmt` is only evaluated inside the guard (it can throw a `TypeError`,
caught by the handler's `catch` into a 500); the store state `sys1` was
already saved before this point. -/
def notifyAndRespond (t : Transport) (sys1 : Sys) (okResp : HttpResponse)
    (writes : List Event) (fmt : Except String String) : HandlerResult :=
  if t = Transport.unconfigured then
    { sys := sys1, response := okResp, events := writes }
  else
    match fmt with
    | Except.error e =>
        { sys := sys1, response := { status := 500, body := RespBody.errorMsg e },
          events := writes }
    | Except.ok msg =>
        match sendToTelegram t msg none none with
        | Except.ok _ =>
            { sys := sys1, response := okResp, events := writes ++ [notifyEvent t] }
        | Except.error e =>
            { sys := sys1, response := { status := 500, body := RespBody.errorMsg e },
              events := writes ++ [notifyEvent t] }

/-- `POST /chat` (server.js): find-or-create the conversation by email,
append a `user` message, save, then — only when the bot is configured —
build the notification text (which throws a `TypeError` when the appended
message text is `undefined`) and `await sendToTelegram(...)`. -/
def handlePostChat (t : Transport) (sys : Sys) (req : ChatReq) (now : Nat) :
    HandlerResult :=
  let newMsg : ChatMessage := { sender := "user", text := req.message, time := now }
  match sys.store.chats.find? (chatMatches req.email) with
  | some chat =>
      let chat1 : ChatRec :=
        { chat with messages := chat.messages ++ [newMsg], updatedAt := now }
      let st1 : Store :=
        { sys.store with
            chats := sys.store.chats.map (fun c => if c.id == chat.id then chat1 else c) }
      notifyAndRespond t { sys with store := st1 }
        { status := 200, body := RespBody.chatJson chat1 }
        [Event.dbWrite "Chat" chat.id]
        (formatChatForTelegram chat1)
  | none =>
      let created : ChatRec :=
        { id := sys.store.nextChatId, name := req.name, email := req.email,
          messages := [], createdAt := now, updatedAt := now }
      let chat1 : ChatRec :=
        { created with messages := [newMsg], updatedAt := now }
      let st1 : Store :=
        { sys.store with
            chats := sys.store.chats ++ [chat1],
            nextChatId := sys.store.nextChatId + 1 }
      notifyAndRespond t { sys with store := st1 }
        { status := 200, body := RespBody.chatJson chat1 }
        [Event.dbWrite "Chat" created.id, Event.dbWrite "Chat" created.id]
        (formatChatForTelegram chat1)

/-- `POST /chat/:id/reply` (server.js): look up by id (404 when absent),
append an `admin` message, save, then — only when the bot is configured —
build the confirmation text (`req.body.message.substring(0, 100)`, which
throws when `message` is absent) and `await sendToTelegram(...)`. -/
def handleAdminReply (t : Transport) (sys : Sys) (id : Nat)
    (message : Option String) (now : Nat) : HandlerResult :=
  match lookupChat sys.store id with
  | none =>
      { sys := sys,
        response := { status := 404, body := RespBody.errorMsg "Chat not found" },
        events := [] }
  | some chat =>
      let chat1 : ChatRec :=
        { chat with
            messages := chat.messages ++ [{ sender := "admin", text := message, time := now }],
            updatedAt := now }
      let st1 : Store :=
        { sys.store with
            chats := sys.store.chats.map (fun c => if c.id == chat.id then chat1 else c) }
      notifyAndRespond t { sys with store := st1 }
        { status := 200, body := RespBody.chatJson chat1 }
        [Event.dbWrite "Chat" chat.id]
        (formatAdminReply chat1 message)

/-! ## Operation sequences (reachable states) -/

/-- One inbound mutating request. -/
inductive Op where
  | submitGiftcard (req : SubmitReq) (dbOk : Bool) (now : Nat)
  | updateStatus (id : Nat) (status : String) (now : Nat)
  | postChat (req : ChatReq) (now : Nat)
  | adminReply (id : Nat) (message : Option String) (now : Nat)
deriving DecidableEq, Repr

/-- Dispatch one request to its handler. -/
def applyOp (t : Transport) (sys : Sys) : Op → HandlerResult
  | Op.submitGiftcard req dbOk now => handleSubmitGiftcard t dbOk sys req now
  | Op.updateStatus id status now => handleUpdateStatus t sys id status now
  | Op.postChat req now => handlePostChat t sys req now
  | Op.adminReply id message now => handleAdminReply t sys id message now

/-- State transition of one request. -/
def stepSys (t : Transport) (sys : Sys) (op : Op) : Sys := (applyOp t sys op).sys

/-- Run a sequence of requests. -/
def runOps (t : Transport) (sys : Sys) (ops : List Op) : Sys :=
  ops.foldl (stepSys t) sys

/-- The empty deployment: no documents, nothing staged. -/
def initSys : Sys :=
  { store := { subs := [], chats := [], nextSubId := 0, nextChatId := 0 }, tempFiles := [] }

/-! ## External-host image strategy (Cloudinary, server.js variant 1) -/

/-- Modelled from the spec: the external object store (Cloudinary) behind
`cloudinary.uploader.upload` is not part of this repository.  Per §4.1 of
the spec it stores the uploaded binary and hands back a publicly fetchable
URL, and `resolve` of such a URL is a no-op that yields the stored bytes
and content type.  URLs are modelled as indices into the host's object
list. -/
structure CloudHost where
  objects : List (List Nat × String)
deriving DecidableEq, Repr

/-- Modelled from the spec: uploading returns the new state of the external
host and the minted public URL. -/
def cloudStore (h : CloudHost) (bytes : List Nat) (contentType : String) :
    CloudHost × Nat :=
  ({ objects := h.objects ++ [(bytes, contentType)] }, h.objects.length)

/-- Modelled from the spec: fetching a public URL returns the stored bytes
and content type. -/
def cloudResolve (h : CloudHost) (url : Nat) : Option (List Nat × String) :=
  h.objects.get? url

/-! ## Derived observations used by the claims -/

/-- Membership of a status string in the `paymentSubmissionSchema` enum. -/
def statusValid (s : String) : Bool :=
  s == "pending" || s == "verified" || s == "rejected"

/-- Every stored submission has an enum status. -/
def statusAllValid (sys : Sys) : Bool :=
  sys.store.subs.all (fun s => statusValid s.status)

/-- An operation whose status argument (if any) is an enum value. -/
def opStatusValid : Op → Bool
  | Op.updateStatus _ status _ => statusValid status
  | _ => true

/-- Whether an operation is the admin status update. -/
def isUpdateStatus : Op → Bool
  | Op.updateStatus _ _ _ => true
  | _ => false

/-- Every `notify` event in the trace is preceded by a `dbWrite`. -/
def writesBefore (seenWrite : Bool) : List Event → Bool
  | [] => true
  | Event.dbWrite _ _ :: rest => writesBefore true rest
  | Event.notify _ :: rest => seenWrite && writesBefore seenWrite rest

/-- A durable write precedes every notification attempt. -/
def writeBeforeNotify (events : List Event) : Bool := writesBefore false events

/-- Number of conversations stored for an email. -/
def chatCountForEmail (st : Store) (e : String) : Nat :=
  st.chats.countP (chatMatches (some e))

/-- The message senders of the first conversation matching an email
(`none` when there is no such conversation). -/
def chatSendersForEmail (st : Store) (e : String) : Option (List String) :=
  (st.chats.find? (chatMatches (some e))).map
    (fun c => c.messages.map (fun m => m.sender))

/-! ## sendToTelegram never throws -/

/-- The catch-all in `sendToTelegram` swallows every transport failure. -/
theorem sendToTelegram_ok (t : Transport) (message : String)
    (imageBase64 : Option String) (imageType : Option String) :
    sendToTelegram t message imageBase64 imageType = Except.ok () := by
  unfold sendToTelegram sendToTelegramTry botSendAttempt
  cases t <;> simp

/-! ## Concrete fixtures -/

/-- A small staged upload. -/
def pngFile : StagedFile := { path := 7, bytes := [1, 2, 3, 200], mimetype := "image/png" }

/-- A zero-byte staged upload. -/
def emptyFile : StagedFile := { path := 7, bytes := [], mimetype := "image/png" }

/-- A well-formed gift-card submission request. -/
def janeSubmitReq : SubmitReq :=
  { name := some "Jane", email := some "jane@x.com", amount := some "25.50",
    note := none, paymentMethod := some "PayPal", file := some pngFile }

/-- The same request with a non-numeric amount. -/
def abcAmountReq : SubmitReq := { janeSubmitReq with amount := some "abc" }

/-- The same request with the name field absent (file still staged). -/
def missingNameReq : SubmitReq := { janeSubmitReq with name := none }

/-- The same request with a zero-byte file. -/
def emptyFileReq : SubmitReq := { janeSubmitReq with file := some emptyFile }

/-- Fresh deployment in which multer has just staged file path 7. -/
def stagedSys : Sys := { initSys with tempFiles := [7] }

/-- Deployment holding exactly the submission created from `janeSubmitReq`. -/
def subSys : Sys := (handleSubmitGiftcard Transport.healthy true stagedSys janeSubmitReq 10).sys

/-- A well-formed chat request. -/
def janeChatReq : ChatReq :=
  { name := some "Jane", email := some "jane@x.com", message := some "Is Rex still available?" }

/-- A chat request whose message field is absent. -/
def noMsgChatReq : ChatReq :=
  { name := some "Jane", email := some "jane@x.com", message := none }

/-- A chat request with every field absent. -/
def emptyChatReq : ChatReq := { name := none, email := none, message := none }

/-- Deployment holding exactly Jane's conversation. -/
def janeChatSys : Sys := (handlePostChat Transport.unconfigured initSys janeChatReq 1).sys

/-! ## C1 -/

/-- C1: the submit operation does return 400 without writing when a
required field is absent, but an amount that is present and not parseable
as a positive number is NOT rejected: `parseFloat("abc")` is `NaN` and the
submission is persisted with that amount under a 200 response.  (Evaluates
`POST /submit-giftcard` at the failing input `amount = "abc"`.) -/
theorem c1_amount_coerced_not_rejected :
    ((handleSubmitGiftcard Transport.healthy true stagedSys missingNameReq 10).response.status = 400
      ∧ (handleSubmitGiftcard Transport.healthy true stagedSys missingNameReq 10).sys.store
          = initSys.store)
    ∧ (handleSubmitGiftcard Transport.healthy true stagedSys abcAmountReq 10).response.status = 200
    ∧ (handleSubmitGiftcard Transport.healthy true stagedSys abcAmountReq 10).sys.store.subs.map
        (fun s => s.amount) = [JsNum.nan] := by
  decide

/-! ## C9 -/

/-- C9: temp-file cleanup is guaranteed on the success path and the
storage-error path of `POST /submit-giftcard`, but the 400 validation path
returns before the `unlink`, leaving the staged file in `/tmp/uploads`. -/
theorem c9_temp_file_leak_on_400 :
    ((handleSubmitGiftcard Transport.healthy true stagedSys missingNameReq 10).response.status = 400
      ∧ (handleSubmitGiftcard Transport.healthy true stagedSys missingNameReq 10).sys.tempFiles = [7])
    ∧ (handleSubmitGiftcard Transport.healthy true stagedSys janeSubmitReq 10).sys.tempFiles = []
    ∧ (handleSubmitGiftcard Transport.healthy false stagedSys janeSubmitReq 10).sys.tempFiles = [] := by
  decide

/-! ## Counterexamples -/

/-- C2 counterexample: a `POST /chat` whose message field is absent gets a
200 when the transport is unconfigured but a 500 when it is healthy —
the notification-side formatting (`lastMessage.text.substring`) throws
before `sendToTelegram` is reached, so the response is not identical to
the transport-healthy case for every request. -/
theorem c2_counterexample :
    (handlePostChat Transport.healthy initSys noMsgChatReq 1).response.status = 500
    ∧ (handlePostChat Transport.unconfigured initSys noMsgChatReq 1).response.status = 200
    ∧ (handlePostChat Transport.healthy initSys noMsgChatReq 1).response
        ≠ (handlePostChat Transport.unconfigured initSys noMsgChatReq 1).response := by
  decide

/-- C4 counterexample: `findByIdAndUpdate` runs no enum validation, so a
reachable state (submit, then update with "banana") holds a submission
whose status is outside {pending, verified, rejected}. -/
theorem c4_counterexample :
    ((runOps Transport.healthy initSys
        [Op.submitGiftcard janeSubmitReq true 10,
         Op.updateStatus 0 "banana" 20]).store.subs.map (fun s => s.status)) = ["banana"]
    ∧ statusValid "banana" = false := by
  decide

/-- C7 counterexample: storing a zero-byte image inline yields an empty
Base64 string, which `GET /api/giftcard-image/:id` treats as a missing
image — the round trip returns 404 instead of the (empty) bytes. -/
theorem c7_counterexample :
    getGiftcardImage (handleSubmitGiftcard Transport.healthy true stagedSys emptyFileReq 10).sys.store 0
      = { status := 404, body := RespBody.errorMsg "Image not found" }
    ∧ getGiftcardImage (handleSubmitGiftcard Transport.healthy true stagedSys emptyFileReq 10).sys.store 0
        ≠ { status := 200, body := RespBody.imageBytes [] "image/png" } := by
  decide

/-- C8 counterexample: `{ timestamps: true }` makes `findByIdAndUpdate`
refresh `updatedAt`, so the timestamps are not byte-identical after
`updateStatus(id, "verified")`. -/
theorem c8_counterexample :
    subSys.store.subs.map (fun s => s.updatedAt) = [10]
    ∧ (handleUpdateStatus Transport.healthy subSys 0 "verified" 20).sys.store.subs.map
        (fun s => s.updatedAt) = [20] := by
  decide

/-- C10 counterexample: with one existing conversation, a `POST /chat`
with all fields absent returns 200 but does NOT create a conversation
keyed on the absent email: Mongoose drops the `undefined` email from the
`findOne` filter, so the message lands in the first existing conversation
(Jane's). -/
theorem c10_counterexample :
    (handlePostChat Transport.unconfigured janeChatSys emptyChatReq 2).response.status = 200
    ∧ (handlePostChat Transport.unconfigured janeChatSys emptyChatReq 2).sys.store.chats.map
        (fun c => (c.email, c.messages.length)) = [(some "jane@x.com", 2)] := by
  decide

/-! ## List helper lemmas -/

theorem lookupSub_map_update (id : Nat) (upd : Submission)
    (hupd : (upd.id == id) = true) :
    ∀ subs : List Submission, (subs.find? (fun s => s.id == id)).isSome →
      (subs.map (fun s => if s.id == id then upd else s)).find?
        (fun s => s.id == id) = some upd
  | [], h => by simp [List.find?] at h
  | a :: t, h => by
      cases hp : (a.id == id) with
      | true =>
          simp [List.find?, hp, hupd]
      | false =>
          have ht : ((t.find? (fun s : Submission => s.id == id)).isSome) := by
            simpa [List.find?, hp] using h
          simpa [List.find?, hp] using lookupSub_map_update id upd hupd t ht

theorem map_ite_eq_self {α : Type} (p : α → Bool) (x : α) :
    ∀ l : List α, (∀ a ∈ l, p a = false) →
      l.map (fun a => if p a then x else a) = l
  | [], _ => rfl
  | a :: t, h => by
      have ha : p a = false := h a (by simp)
      have ht := map_ite_eq_self p x t (fun b hb => h b (by simp [hb]))
      simp [ha, ht]

theorem encB64_ne_nil : ∀ bs : List Nat, bs ≠ [] → encB64 bs ≠ []
  | [], h => absurd rfl h
  | [a], _ => by simp [encB64]
  | [a, b], _ => by simp [encB64]
  | a :: b :: c :: rest, _ => by simp [encB64]

/-- The submission record `subSys` holds. -/
def janeStoredSub : Submission :=
  { id := 0, name := "Jane", email := "jane@x.com", amount := parseFloat "25.50",
    note := none, paymentMethod := some "PayPal",
    giftCardImage := String.mk (encB64 pngFile.bytes), giftCardImageType := "image/png",
    status := "pending", createdAt := 10, updatedAt := 10 }

/-! ## C3 -/

/-- C3: `PUT /giftcard-submissions/:id` returns 404 and writes nothing
when the id does not resolve; otherwise it persists the new status on that
submission (with a refreshed `updatedAt`) and fires the status-change
notification. -/
theorem c3_updateStatus_spec (t : Transport) (sys : Sys) (id : Nat)
    (status : String) (now : Nat) :
    (lookupSub sys.store id = none →
        (handleUpdateStatus t sys id status now).response =
          { status := 404, body := RespBody.errorMsg "Submission not found" }
        ∧ (handleUpdateStatus t sys id status now).sys = sys
        ∧ (handleUpdateStatus t sys id status now).events = [])
    ∧ (∀ old, lookupSub sys.store id = some old →
        lookupSub (handleUpdateStatus t sys id status now).sys.store id =
          some { old with status := status, updatedAt := now }
        ∧ (handleUpdateStatus t sys id status now).response =
            { status := 200,
              body := RespBody.subJson { old with status := status, updatedAt := now } }
        ∧ (handleUpdateStatus t sys id status now).events =
            [Event.dbWrite "PaymentSubmission" id, notifyEvent t]) := by
  constructor
  · intro hmiss
    simp [handleUpdateStatus, hmiss]
  · intro old hold
    have hold' : sys.store.subs.find? (fun s => s.id == id) = some old := hold
    have hpold := List.find?_some hold'
    have hupd : (({ old with status := status, updatedAt := now } : Submission).id == id)
        = true := hpold
    have hsome : ((sys.store.subs.find? (fun s => s.id == id)).isSome) := by
      rw [hold']
      rfl
    have hfind := lookupSub_map_update id
      { old with status := status, updatedAt := now } hupd sys.store.subs hsome
    simp only [handleUpdateStatus, lookupSub, hold', sendToTelegram_ok]
    exact ⟨hfind, trivial, trivial⟩

/-- Witness for C3 at a concrete store: a missing id yields 404 with no
write, and updating the stored submission persists the new status and
fires the notification. -/
theorem c3_updateStatus_spec_witness :
    ((handleUpdateStatus Transport.healthy subSys 5 "verified" 20).response =
        { status := 404, body := RespBody.errorMsg "Submission not found" }
      ∧ (handleUpdateStatus Transport.healthy subSys 5 "verified" 20).sys = subSys
      ∧ (handleUpdateStatus Transport.healthy subSys 5 "verified" 20).events = [])
    ∧ (handleUpdateStatus Transport.healthy subSys 0 "verified" 20).events =
        [Event.dbWrite "PaymentSubmission" 0, notifyEvent Transport.healthy] := by
  constructor
  · exact (c3_updateStatus_spec Transport.healthy subSys 5 "verified" 20).1 (by decide)
  · exact (((c3_updateStatus_spec Transport.healthy subSys 0 "verified" 20).2
      janeStoredSub rfl).2).2

/-! ## C8 -/

/-- C8 (amended): `updateStatus(id, status)` on an existing submission
changes only `status` and `updatedAt` (the latter refreshed by
`{ timestamps: true }`); name, email, amount, note, payment method, the
gift-card image and its type, and `createdAt` are unchanged. -/
theorem c8_frame (t : Transport) (sys : Sys) (id : Nat) (status : String)
    (now : Nat) (old : Submission) (hold : lookupSub sys.store id = some old) :
    ∃ upd, lookupSub (handleUpdateStatus t sys id status now).sys.store id = some upd
      ∧ upd.status = status
      ∧ upd.updatedAt = now
      ∧ upd.name = old.name
      ∧ upd.email = old.email
      ∧ upd.amount = old.amount
      ∧ upd.note = old.note
      ∧ upd.paymentMethod = old.paymentMethod
      ∧ upd.giftCardImage = old.giftCardImage
      ∧ upd.giftCardImageType = old.giftCardImageType
      ∧ upd.createdAt = old.createdAt := by
  refine ⟨{ old with status := status, updatedAt := now }, ?_,
    rfl, rfl, rfl, rfl, rfl, rfl, rfl, rfl, rfl, rfl⟩
  exact (((c3_updateStatus_spec t sys id status now).2 old hold).1)

/-- Witness for C8 at the concrete store `subSys`. -/
theorem c8_frame_witness :
    ∃ upd, lookupSub (handleUpdateStatus Transport.healthy subSys 0 "verified" 20).sys.store 0
        = some upd
      ∧ upd.status = "verified"
      ∧ upd.updatedAt = 20
      ∧ upd.name = "Jane"
      ∧ upd.email = "jane@x.com"
      ∧ upd.amount = parseFloat "25.50"
      ∧ upd.note = none
      ∧ upd.paymentMethod = some "PayPal"
      ∧ upd.giftCardImage = String.mk (encB64 pngFile.bytes)
      ∧ upd.giftCardImageType = "image/png"
      ∧ upd.createdAt = 10 := by
  obtain ⟨upd, h1, h2, h3, h4, h5, h6, h7, h8, h9, h10, h11⟩ :=
    c8_frame Transport.healthy subSys 0 "verified" 20 janeStoredSub rfl
  refine ⟨upd, h1, h2, h3, ?_, ?_, ?_, ?_, ?_, ?_, ?_, ?_⟩
  · rw [h4]; rfl
  · rw [h5]; rfl
  · rw [h6]; rfl
  · rw [h7]; rfl
  · rw [h8]; rfl
  · rw [h9]; rfl
  · rw [h10]; rfl
  · rw [h11]; rfl

/-! ## notifyAndRespond lemmas -/

theorem notifyAndRespond_sys (t : Transport) (s : Sys) (okResp : HttpResponse)
    (w : List Event) (f : Except String String) :
    (notifyAndRespond t s okResp w f).sys = s := by
  unfold notifyAndRespond
  split_ifs
  · rfl
  · cases f with
    | error e => rfl
    | ok m => simp [sendToTelegram_ok]

theorem notifyAndRespond_events (t : Transport) (s : Sys) (okResp : HttpResponse)
    (w : List Event) (f : Except String String) :
    (notifyAndRespond t s okResp w f).events = w
    ∨ (notifyAndRespond t s okResp w f).events = w ++ [notifyEvent t] := by
  unfold notifyAndRespond
  split_ifs
  · exact Or.inl rfl
  · cases f with
    | error e => exact Or.inl rfl
    | ok m =>
        simp [sendToTelegram_ok]

theorem nr_response_eq_of_ok (t t' : Transport) (s s' : Sys) (okResp : HttpResponse)
    (w w' : List Event) (f : Except String String) (h : ∃ out, f = Except.ok out) :
    (notifyAndRespond t s okResp w f).response
      = (notifyAndRespond t' s' okResp w' f).response := by
  obtain ⟨out, rfl⟩ := h
  unfold notifyAndRespond
  split_ifs <;> simp [sendToTelegram_ok]

/-! ## C2 -/

/-- C2 (amended): the notify wrapper never throws, and the HTTP response
of each triggering request is transport-independent — unconditionally for
`POST /submit-giftcard` and `PUT /giftcard-submissions/:id`, and for
`POST /chat` / `POST /chat/:id/reply` whenever the request's message field
is present (when it is absent, the guarded notification formatting itself
throws before `sendToTelegram` runs; see the counterexample). -/
theorem c2_notify_isolation :
    (∀ t message imageBase64 imageType,
        sendToTelegram t message imageBase64 imageType = Except.ok ())
    ∧ (∀ t t' : Transport, ∀ dbOk sys req now,
        (handleSubmitGiftcard t dbOk sys req now).response
          = (handleSubmitGiftcard t' dbOk sys req now).response)
    ∧ (∀ t t' : Transport, ∀ sys id status now,
        (handleUpdateStatus t sys id status now).response
          = (handleUpdateStatus t' sys id status now).response)
    ∧ (∀ t t' : Transport, ∀ sys req now, (ChatReq.message req).isSome →
        (handlePostChat t sys req now).response
          = (handlePostChat t' sys req now).response)
    ∧ (∀ t t' : Transport, ∀ sys id message now, (Option.isSome message) →
        (handleAdminReply t sys id message now).response
          = (handleAdminReply t' sys id message now).response) := by
  refine ⟨sendToTelegram_ok, ?_, ?_, ?_, ?_⟩
  · intro t t' dbOk sys req now
    cases hf : req.file with
    | none => simp [handleSubmitGiftcard, hf]
    | some f =>
        by_cases hv : truthy req.name ∧ truthy req.email ∧ truthy req.amount
        · cases dbOk <;> simp [handleSubmitGiftcard, hf, hv, sendToTelegram_ok]
        · simp [handleSubmitGiftcard, hf, hv]
  · intro t t' sys id status now
    cases hl : lookupSub sys.store id with
    | none => simp [handleUpdateStatus, hl]
    | some old => simp [handleUpdateStatus, hl, sendToTelegram_ok]
  · intro t t' sys req now hm
    obtain ⟨m, hm⟩ := Option.isSome_iff_exists.mp hm
    cases hfind : sys.store.chats.find? (chatMatches req.email) with
    | some chat =>
        simp only [handlePostChat, hfind]
        apply nr_response_eq_of_ok
        simp [formatChatForTelegram, List.getLast?_concat, hm]
    | none =>
        simp only [handlePostChat, hfind]
        apply nr_response_eq_of_ok
        simp [formatChatForTelegram, hm]
  · intro t t' sys id message now hm
    obtain ⟨m, hm⟩ := Option.isSome_iff_exists.mp hm
    cases hl : lookupChat sys.store id with
    | none => simp [handleAdminReply, hl]
    | some chat =>
        simp only [handleAdminReply, hl]
        apply nr_response_eq_of_ok
        simp [formatAdminReply, hm]

/-- Witness for C2 at concrete requests with the message field present: an
unreachable transport yields the same response as a healthy one. -/
theorem c2_notify_isolation_witness :
    (handlePostChat Transport.unreachable initSys janeChatReq 1).response
      = (handlePostChat Transport.healthy initSys janeChatReq 1).response
    ∧ (handleAdminReply Transport.unreachable janeChatSys 0 (some "On our way") 2).response
      = (handleAdminReply Transport.healthy janeChatSys 0 (some "On our way") 2).response :=
  ⟨c2_notify_isolation.2.2.2.1 Transport.unreachable Transport.healthy initSys
      janeChatReq 1 (by decide),
   c2_notify_isolation.2.2.2.2 Transport.unreachable Transport.healthy janeChatSys
      0 (some "On our way") 2 (by decide)⟩

/-! ## C5 -/

/-- C5: for every request and every transport behaviour, a durable store
write precedes every notification attempt in the handler's event trace,
and the resulting store state is identical to the transport-healthy case —
notification failure neither prevents nor rolls back the write. -/
theorem c5_write_before_notify :
    ∀ (t : Transport) (sys : Sys) (op : Op),
      writeBeforeNotify (applyOp t sys op).events = true
      ∧ (applyOp t sys op).sys = (applyOp Transport.healthy sys op).sys := by
  intro t sys op
  cases op with
  | submitGiftcard req dbOk now =>
      constructor
      · cases hf : req.file with
        | none => simp [applyOp, handleSubmitGiftcard, hf, writeBeforeNotify, writesBefore]
        | some f =>
            by_cases hv : truthy req.name ∧ truthy req.email ∧ truthy req.amount
            · cases dbOk <;>
                simp [applyOp, handleSubmitGiftcard, hf, hv, sendToTelegram_ok,
                  writeBeforeNotify, writesBefore]
            · simp [applyOp, handleSubmitGiftcard, hf, hv, writeBeforeNotify, writesBefore]
      · cases hf : req.file with
        | none => simp [applyOp, handleSubmitGiftcard, hf]
        | some f =>
            by_cases hv : truthy req.name ∧ truthy req.email ∧ truthy req.amount
            · cases dbOk <;> simp [applyOp, handleSubmitGiftcard, hf, hv, sendToTelegram_ok]
            · simp [applyOp, handleSubmitGiftcard, hf, hv]
  | updateStatus id status now =>
      constructor
      · cases hl : lookupSub sys.store id with
        | none => simp [applyOp, handleUpdateStatus, hl, writeBeforeNotify, writesBefore]
        | some old =>
            simp [applyOp, handleUpdateStatus, hl, sendToTelegram_ok,
              writeBeforeNotify, writesBefore]
      · cases hl : lookupSub sys.store id with
        | none => simp [applyOp, handleUpdateStatus, hl]
        | some old => simp [applyOp, handleUpdateStatus, hl, sendToTelegram_ok]
  | postChat req now =>
      constructor
      · cases hfind : sys.store.chats.find? (chatMatches req.email) with
        | some chat =>
            simp only [applyOp, handlePostChat, hfind]
            rcases notifyAndRespond_events t _ _ _ (formatChatForTelegram _) with h | h <;>
              rw [h] <;> simp [writeBeforeNotify, writesBefore, notifyEvent]
        | none =>
            simp only [applyOp, handlePostChat, hfind]
            rcases notifyAndRespond_events t _ _ _ (formatChatForTelegram _) with h | h <;>
              rw [h] <;> simp [writeBeforeNotify, writesBefore, notifyEvent]
      · cases hfind : sys.store.chats.find? (chatMatches req.email) with
        | some chat =>
            simp only [applyOp, handlePostChat, hfind, notifyAndRespond_sys]
        | none =>
            simp only [applyOp, handlePostChat, hfind, notifyAndRespond_sys]
  | adminReply id message now =>
      constructor
      · cases hl : lookupChat sys.store id with
        | none => simp [applyOp, handleAdminReply, hl, writeBeforeNotify, writesBefore]
        | some chat =>
            simp only [applyOp, handleAdminReply, hl]
            rcases notifyAndRespond_events t _ _ _ (formatAdminReply _ message) with h | h <;>
              rw [h] <;> simp [writeBeforeNotify, writesBefore, notifyEvent]
      · cases hl : lookupChat sys.store id with
        | none => simp [applyOp, handleAdminReply, hl]
        | some chat => simp only [applyOp, handleAdminReply, hl, notifyAndRespond_sys]

theorem nr_response_cases (t : Transport) (s : Sys) (okResp : HttpResponse)
    (w : List Event) (f : Except String String) :
    (notifyAndRespond t s okResp w f).response = okResp
    ∨ (notifyAndRespond t s okResp w f).response.status = 500 := by
  unfold notifyAndRespond
  split_ifs
  · exact Or.inl rfl
  · cases f with
    | error e => exact Or.inr rfl
    | ok m => simp [sendToTelegram_ok]

theorem nr_status_500_of_error (t : Transport) (s : Sys) (okResp : HttpResponse)
    (w : List Event) (f : Except String String) (ht : t ≠ Transport.unconfigured)
    (h : ∃ e, f = Except.error e) :
    (notifyAndRespond t s okResp w f).response.status = 500 := by
  obtain ⟨e, rfl⟩ := h
  simp [notifyAndRespond, ht]

theorem nr_response_unconf (s : Sys) (okResp : HttpResponse)
    (w : List Event) (f : Except String String) :
    (notifyAndRespond Transport.unconfigured s okResp w f).response = okResp := by
  simp [notifyAndRespond]

/-! ## C10 -/

/-- C10 (amended): `POST /chat` performs no input validation and never
returns 400.  But a request with an absent email does not get a dedicated
conversation: Mongoose strips the `undefined` email from the `findOne`
filter, so the user message (whose text is the absent value) is appended
to the first existing conversation; a fresh conversation (with no
name/email) is created only when no conversation exists at all.  And with
an absent message the request 500s when the bot is configured (the
notification formatting throws) while returning 200 when unconfigured. -/
theorem c10_no_validation :
    (∀ (t : Transport) (sys : Sys) (req : ChatReq) (now : Nat),
        (handlePostChat t sys req now).response.status ≠ 400)
    ∧ (∀ (t : Transport) (sys : Sys) (req : ChatReq) (now : Nat) (c : ChatRec)
          (cs : List ChatRec), req.email = none → sys.store.chats = c :: cs →
        (handlePostChat t sys req now).sys.store.chats.length = sys.store.chats.length
        ∧ (handlePostChat t sys req now).sys.store.chats.head? =
            some { c with
              messages := c.messages ++
                [{ sender := "user", text := req.message, time := now }],
              updatedAt := now })
    ∧ (∀ (t : Transport) (sys : Sys) (req : ChatReq) (now : Nat),
          req.email = none → sys.store.chats = [] →
        (handlePostChat t sys req now).sys.store.chats =
          [{ id := sys.store.nextChatId, name := req.name, email := none,
             messages := [{ sender := "user", text := req.message, time := now }],
             createdAt := now, updatedAt := now }])
    ∧ (∀ (t : Transport) (sys : Sys) (req : ChatReq) (now : Nat),
          req.message = none → t ≠ Transport.unconfigured →
        (handlePostChat t sys req now).response.status = 500)
    ∧ (∀ (sys : Sys) (req : ChatReq) (now : Nat),
        (handlePostChat Transport.unconfigured sys req now).response.status = 200) := by
  refine ⟨?_, ?_, ?_, ?_, ?_⟩
  · intro t sys req now
    cases hfind : sys.store.chats.find? (chatMatches req.email) with
    | some chat =>
        simp only [handlePostChat, hfind]
        rcases nr_response_cases t _ _ _ (formatChatForTelegram _) with h | h
        · rw [h]; simp
        · rw [h]; simp
    | none =>
        simp only [handlePostChat, hfind]
        rcases nr_response_cases t _ _ _ (formatChatForTelegram _) with h | h
        · rw [h]; simp
        · rw [h]; simp
  · intro t sys req now c cs he hchats
    have hfind : sys.store.chats.find? (chatMatches req.email) = some c := by
      rw [hchats, he]
      simp [List.find?, chatMatches]
    constructor
    · simp only [handlePostChat, hfind, notifyAndRespond_sys]
      simp
    · simp only [handlePostChat, hfind, notifyAndRespond_sys]
      rw [hchats]
      simp
  · intro t sys req now he hchats
    have hfind : sys.store.chats.find? (chatMatches req.email) = none := by
      rw [hchats]
      rfl
    simp only [handlePostChat, hfind, notifyAndRespond_sys]
    rw [hchats, he]
    simp
  · intro t sys req now hm ht
    cases hfind : sys.store.chats.find? (chatMatches req.email) with
    | some chat =>
        simp only [handlePostChat, hfind]
        apply nr_status_500_of_error _ _ _ _ _ ht
        simp [formatChatForTelegram, List.getLast?_concat, hm]
    | none =>
        simp only [handlePostChat, hfind]
        apply nr_status_500_of_error _ _ _ _ _ ht
        simp [formatChatForTelegram, hm]
  · intro sys req now
    cases hfind : sys.store.chats.find? (chatMatches req.email) with
    | some chat => simp only [handlePostChat, hfind, nr_response_unconf]
    | none => simp only [handlePostChat, hfind, nr_response_unconf]

/-- The conversation stored in `janeChatSys`. -/
def janeChat : ChatRec :=
  { id := 0, name := some "Jane", email := some "jane@x.com",
    messages := [{ sender := "user", text := some "Is Rex still available?", time := 1 }],
    createdAt := 1, updatedAt := 1 }

/-- Witness for C10 at concrete requests: an all-absent request against a
store holding Jane's conversation appends to it (no new conversation and
no 400); against an empty store it creates the single field-less
conversation; an absent message 500s on a configured transport and 200s on
an unconfigured one. -/
theorem c10_no_validation_witness :
    (handlePostChat Transport.unconfigured janeChatSys emptyChatReq 2).response.status ≠ 400
    ∧ ((handlePostChat Transport.unconfigured janeChatSys emptyChatReq 2).sys.store.chats.length
        = janeChatSys.store.chats.length
      ∧ (handlePostChat Transport.unconfigured janeChatSys emptyChatReq 2).sys.store.chats.head? =
          some { janeChat with
            messages := janeChat.messages ++ [{ sender := "user", text := none, time := 2 }],
            updatedAt := 2 })
    ∧ (handlePostChat Transport.unconfigured initSys emptyChatReq 2).sys.store.chats =
        [{ id := 0, name := none, email := none,
           messages := [{ sender := "user", text := none, time := 2 }],
           createdAt := 2, updatedAt := 2 }]
    ∧ (handlePostChat Transport.healthy janeChatSys noMsgChatReq 3).response.status = 500
    ∧ (handlePostChat Transport.unconfigured janeChatSys noMsgChatReq 3).response.status = 200 := by
  refine ⟨c10_no_validation.1 Transport.unconfigured janeChatSys emptyChatReq 2, ?_, ?_, ?_, ?_⟩
  · exact c10_no_validation.2.1 Transport.unconfigured janeChatSys emptyChatReq 2
      janeChat [] rfl (by decide)
  · exact c10_no_validation.2.2.1 Transport.unconfigured initSys emptyChatReq 2 rfl rfl
  · exact c10_no_validation.2.2.2.1 Transport.healthy janeChatSys noMsgChatReq 3 rfl
      (by decide)
  · exact c10_no_validation.2.2.2.2 janeChatSys noMsgChatReq 3

theorem chats_map_update_frozen (cid : Nat) (x : ChatRec) :
    ∀ l : List ChatRec, (∀ a ∈ l, (a.id == cid) = false) →
      l.map (fun c => if c.id == cid then x else c) = l
  | [], _ => rfl
  | a :: t, h => by
      have ha : (a.id == cid) = false := h a (by simp)
      have ht := chats_map_update_frozen cid x t (fun b hb => h b (by simp [hb]))
      simp only [List.map_cons, ha, Bool.false_eq_true, if_false, ht]

/-! ## C6 -/

/-- C6: starting from a store holding no conversation for email `e` (and
whose chat ids are all below the id counter, as MongoDB guarantees), a
first `POST /chat` for `e` creates exactly one new conversation holding
one `user` message, and a second `POST /chat` for the same `e` appends one
more `user` message to that same conversation instead of creating a second
one. -/
theorem c6_one_conversation_per_email (t1 t2 : Transport) (sys : Sys) (e : String)
    (req1 req2 : ChatReq) (now1 now2 : Nat)
    (he1 : req1.email = some e) (he2 : req2.email = some e)
    (hzero : chatCountForEmail sys.store e = 0)
    (hfresh : ∀ c ∈ sys.store.chats, c.id < sys.store.nextChatId) :
    (handlePostChat t1 sys req1 now1).sys.store.chats.length
        = sys.store.chats.length + 1
    ∧ chatCountForEmail (handlePostChat t1 sys req1 now1).sys.store e = 1
    ∧ chatSendersForEmail (handlePostChat t1 sys req1 now1).sys.store e = some ["user"]
    ∧ (handlePostChat t2 (handlePostChat t1 sys req1 now1).sys req2 now2).sys.store.chats.length
        = (handlePostChat t1 sys req1 now1).sys.store.chats.length
    ∧ chatCountForEmail
        (handlePostChat t2 (handlePostChat t1 sys req1 now1).sys req2 now2).sys.store e = 1
    ∧ chatSendersForEmail
        (handlePostChat t2 (handlePostChat t1 sys req1 now1).sys req2 now2).sys.store e
        = some ["user", "user"] := by
  have hzero' : ∀ c ∈ sys.store.chats, ¬ (chatMatches (some e) c = true) := by
    intro c hc
    exact List.countP_eq_zero.mp hzero c hc
  have hnone : sys.store.chats.find? (chatMatches req1.email) = none := by
    rw [he1]
    exact List.find?_eq_none.mpr hzero'
  have hr1 : (handlePostChat t1 sys req1 now1).sys.store =
      { sys.store with
          chats := sys.store.chats ++
            [{ id := sys.store.nextChatId, name := req1.name, email := req1.email,
               messages := [{ sender := "user", text := req1.message, time := now1 }],
               createdAt := now1, updatedAt := now1 }],
          nextChatId := sys.store.nextChatId + 1 } := by
    simp only [handlePostChat, hnone, notifyAndRespond_sys]
  have hmatch1 : chatMatches (some e)
      { id := sys.store.nextChatId, name := req1.name, email := req1.email,
        messages := [{ sender := "user", text := req1.message, time := now1 }],
        createdAt := now1, updatedAt := now1 } = true := by
    simp [chatMatches, he1]
  have hfindchats : sys.store.chats.find? (chatMatches (some e)) = none :=
    List.find?_eq_none.mpr hzero'
  have hfind1 : (handlePostChat t1 sys req1 now1).sys.store.chats.find?
      (chatMatches (some e)) =
      some { id := sys.store.nextChatId, name := req1.name, email := req1.email,
             messages := [{ sender := "user", text := req1.message, time := now1 }],
             createdAt := now1, updatedAt := now1 } := by
    rw [hr1]
    simp only [List.find?_append, hfindchats, Option.none_or]
    simp [List.find?, hmatch1]
  have hcount1 : chatCountForEmail (handlePostChat t1 sys req1 now1).sys.store e = 1 := by
    rw [chatCountForEmail, hr1]
    simp only [List.countP_append]
    have : sys.store.chats.countP (chatMatches (some e)) = 0 := hzero
    rw [this]
    simp [List.countP, List.countP.go, hmatch1]
  have hfreshbeq : ∀ a ∈ sys.store.chats, (a.id == sys.store.nextChatId) = false := by
    intro a ha
    have := hfresh a ha
    simp [Nat.ne_of_lt this]
  have hsys1 : (handlePostChat t1 sys req1 now1).sys =
      { store :=
          { sys.store with
              chats := sys.store.chats ++
                [{ id := sys.store.nextChatId, name := req1.name, email := req1.email,
                   messages := [{ sender := "user", text := req1.message, time := now1 }],
                   createdAt := now1, updatedAt := now1 }],
              nextChatId := sys.store.nextChatId + 1 },
        tempFiles := sys.tempFiles } := by
    simp only [handlePostChat, hnone, notifyAndRespond_sys]
  have hfind2' : List.find? (chatMatches req2.email)
      (sys.store.chats ++
        [{ id := sys.store.nextChatId, name := req1.name, email := req1.email,
           messages := [{ sender := "user", text := req1.message, time := now1 }],
           createdAt := now1, updatedAt := now1 }]) =
      some { id := sys.store.nextChatId, name := req1.name, email := req1.email,
             messages := [{ sender := "user", text := req1.message, time := now1 }],
             createdAt := now1, updatedAt := now1 } := by
    rw [he2]
    simp only [List.find?_append, hfindchats, Option.none_or]
    simp [List.find?, hmatch1]
  have hr2 : (handlePostChat t2 (handlePostChat t1 sys req1 now1).sys req2 now2).sys.store.chats
      = sys.store.chats ++
        [{ id := sys.store.nextChatId, name := req1.name, email := req1.email,
           messages := [{ sender := "user", text := req1.message, time := now1 },
             { sender := "user", text := req2.message, time := now2 }],
           createdAt := now1, updatedAt := now2 }] := by
    rw [hsys1]
    simp only [handlePostChat, hfind2', notifyAndRespond_sys]
    simp only [List.map_append]
    rw [chats_map_update_frozen sys.store.nextChatId _ sys.store.chats hfreshbeq]
    simp
  have hmatch2 : chatMatches (some e)
      { id := sys.store.nextChatId, name := req1.name, email := req1.email,
        messages := [{ sender := "user", text := req1.message, time := now1 },
          { sender := "user", text := req2.message, time := now2 }],
        createdAt := now1, updatedAt := now2 } = true := by
    simp [chatMatches, he1]
  refine ⟨?_, hcount1, ?_, ?_, ?_, ?_⟩
  · rw [hr1]
    simp
  · rw [chatSendersForEmail, hfind1]
    rfl
  · rw [hr2, hr1]
    simp
  · rw [chatCountForEmail, hr2]
    simp only [List.countP_append]
    have : sys.store.chats.countP (chatMatches (some e)) = 0 := hzero
    rw [this]
    simp [List.countP, List.countP.go, hmatch2]
  · rw [chatSendersForEmail, hr2]
    simp only [List.find?_append, hfindchats, Option.none_or]
    simp [List.find?, hmatch2]

/-- Witness for C6: two posts from Jane against the empty store yield one
conversation with two `user` messages. -/
theorem c6_one_conversation_per_email_witness :
    (handlePostChat Transport.unconfigured initSys janeChatReq 1).sys.store.chats.length
        = initSys.store.chats.length + 1
    ∧ chatCountForEmail (handlePostChat Transport.unconfigured initSys janeChatReq 1).sys.store
        "jane@x.com" = 1
    ∧ chatSendersForEmail (handlePostChat Transport.unconfigured initSys janeChatReq 1).sys.store
        "jane@x.com" = some ["user"]
    ∧ (handlePostChat Transport.unconfigured
        (handlePostChat Transport.unconfigured initSys janeChatReq 1).sys
        janeChatReq 2).sys.store.chats.length
        = (handlePostChat Transport.unconfigured initSys janeChatReq 1).sys.store.chats.length
    ∧ chatCountForEmail (handlePostChat Transport.unconfigured
        (handlePostChat Transport.unconfigured initSys janeChatReq 1).sys
        janeChatReq 2).sys.store "jane@x.com" = 1
    ∧ chatSendersForEmail (handlePostChat Transport.unconfigured
        (handlePostChat Transport.unconfigured initSys janeChatReq 1).sys
        janeChatReq 2).sys.store "jane@x.com" = some ["user", "user"] :=
  c6_one_conversation_per_email Transport.unconfigured Transport.unconfigured initSys
    "jane@x.com" janeChatReq janeChatReq 1 2 rfl rfl (by decide) (by decide)

/-! ## C7 -/

/-- C7 (amended): the image round trip holds for every non-empty byte
sequence and non-empty content type.  Inline strategy: submitting stores
the Base64 encoding and `GET /api/giftcard-image/:id` returns the exact
bytes with the stored content type.  External-host strategy (spec-modelled
Cloudinary): resolving the minted URL returns the stored pair.  (For empty
bytes the inline strategy 404s; see the counterexample.) -/
theorem c7_roundtrip :
    (∀ (t : Transport) (sys : Sys) (req : SubmitReq) (now : Nat) (f : StagedFile),
        req.file = some f →
        truthy req.name = true → truthy req.email = true → truthy req.amount = true →
        f.bytes ≠ [] → (∀ x ∈ f.bytes, x < 256) → f.mimetype ≠ "" →
        (∀ s ∈ sys.store.subs, s.id ≠ sys.store.nextSubId) →
        getGiftcardImage (handleSubmitGiftcard t true sys req now).sys.store
            sys.store.nextSubId
          = { status := 200, body := RespBody.imageBytes f.bytes f.mimetype })
    ∧ (∀ (h : CloudHost) (bytes : List Nat) (contentType : String),
        cloudResolve (cloudStore h bytes contentType).1 (cloudStore h bytes contentType).2
          = some (bytes, contentType)) := by
  constructor
  · intro t sys req now f hf hn he ha hb hlt hm hfresh
    have hstore : (handleSubmitGiftcard t true sys req now).sys.store =
        { sys.store with
            subs := sys.store.subs ++
              [{ id := sys.store.nextSubId, name := req.name.getD "",
                 email := req.email.getD "",
                 amount := parseFloat (req.amount.getD ""), note := req.note,
                 paymentMethod := req.paymentMethod,
                 giftCardImage := String.mk (encB64 f.bytes),
                 giftCardImageType := f.mimetype,
                 status := "pending", createdAt := now, updatedAt := now }],
            nextSubId := sys.store.nextSubId + 1 } := by
      simp [handleSubmitGiftcard, hf, hn, he, ha, sendToTelegram_ok]
    have hfind0 : List.find? (fun s => s.id == sys.store.nextSubId) sys.store.subs
        = none := by
      apply List.find?_eq_none.mpr
      intro s hs
      simpa using hfresh s hs
    have himg : ¬ (String.mk (encB64 f.bytes) = "") := by
      intro hcontr
      exact encB64_ne_nil f.bytes hb (by simpa using congrArg String.data hcontr)
    rw [hstore]
    simp only [getGiftcardImage, lookupSub]
    simp only [List.find?_append, hfind0, Option.none_or]
    simp only [List.find?, beq_self_eq_true, cond_true]
    simp only [himg, if_false, hm]
    rw [decB64_encB64 f.bytes hlt]
  · intro h bytes contentType
    simp [cloudStore, cloudResolve, List.get?_concat_length]

/-- Witness for C7: a four-byte PNG upload round-trips through both
strategies. -/
theorem c7_roundtrip_witness :
    getGiftcardImage (handleSubmitGiftcard Transport.healthy true stagedSys
        janeSubmitReq 10).sys.store 0
      = { status := 200, body := RespBody.imageBytes [1, 2, 3, 200] "image/png" }
    ∧ cloudResolve (cloudStore { objects := [] } [1, 2, 3, 200] "image/png").1
        (cloudStore { objects := [] } [1, 2, 3, 200] "image/png").2
      = some ([1, 2, 3, 200], "image/png") :=
  ⟨c7_roundtrip.1 Transport.healthy stagedSys janeSubmitReq 10 pngFile rfl
      (by decide) (by decide) (by decide) (by decide) (by decide) (by decide)
      (by intro s hs; simp [stagedSys, initSys] at hs),
   c7_roundtrip.2 { objects := [] } [1, 2, 3, 200] "image/png"⟩

/-! ## C4 -/

theorem postChat_subs (t : Transport) (sys : Sys) (req : ChatReq) (now : Nat) :
    (handlePostChat t sys req now).sys.store.subs = sys.store.subs := by
  cases hfind : sys.store.chats.find? (chatMatches req.email) with
  | some chat => simp only [handlePostChat, hfind, notifyAndRespond_sys]
  | none => simp only [handlePostChat, hfind, notifyAndRespond_sys]

theorem adminReply_subs (t : Transport) (sys : Sys) (id : Nat)
    (message : Option String) (now : Nat) :
    (handleAdminReply t sys id message now).sys.store.subs = sys.store.subs := by
  cases hl : lookupChat sys.store id with
  | some chat => simp only [handleAdminReply, hl, notifyAndRespond_sys]
  | none => simp only [handleAdminReply, hl]

theorem submit_subs_cases (t : Transport) (dbOk : Bool) (sys : Sys)
    (req : SubmitReq) (now : Nat) :
    (handleSubmitGiftcard t dbOk sys req now).sys.store.subs = sys.store.subs
    ∨ ∃ newSub : Submission, newSub.status = "pending" ∧
        (handleSubmitGiftcard t dbOk sys req now).sys.store.subs
          = sys.store.subs ++ [newSub] := by
  cases hf : req.file with
  | none => exact Or.inl (by simp [handleSubmitGiftcard, hf])
  | some f =>
      by_cases hv : truthy req.name ∧ truthy req.email ∧ truthy req.amount
      · cases dbOk with
        | false => exact Or.inl (by simp [handleSubmitGiftcard, hf, hv])
        | true =>
            refine Or.inr
              ⟨{ id := sys.store.nextSubId, name := req.name.getD "",
                 email := req.email.getD "", amount := parseFloat (req.amount.getD ""),
                 note := req.note, paymentMethod := req.paymentMethod,
                 giftCardImage := String.mk (encB64 f.bytes),
                 giftCardImageType := f.mimetype, status := "pending",
                 createdAt := now, updatedAt := now }, rfl, ?_⟩
            simp [handleSubmitGiftcard, hf, hv, sendToTelegram_ok]
      · exact Or.inl (by simp [handleSubmitGiftcard, hf, hv])

theorem updateStatus_preserves_valid (t : Transport) (sys : Sys) (id : Nat)
    (status : String) (now : Nat) (hst : statusValid status = true)
    (hsys : statusAllValid sys = true) :
    statusAllValid (handleUpdateStatus t sys id status now).sys = true := by
  cases hl : lookupSub sys.store id with
  | none =>
      simp only [handleUpdateStatus, hl]
      exact hsys
  | some old =>
      simp only [statusAllValid] at hsys
      simp only [handleUpdateStatus, hl, sendToTelegram_ok, statusAllValid]
      rw [List.all_eq_true]
      intro x hx
      rw [List.mem_map] at hx
      obtain ⟨s, hs, rfl⟩ := hx
      by_cases hid : (s.id == id) = true
      · simp [hid, hst]
      · simp only [hid, Bool.false_eq_true, if_false]
        exact List.all_eq_true.mp hsys s hs

theorem step_preserves_valid (t : Transport) (sys : Sys) (op : Op)
    (hop : opStatusValid op = true) (hsys : statusAllValid sys = true) :
    statusAllValid (stepSys t sys op) = true := by
  cases op with
  | submitGiftcard req dbOk now =>
      rcases submit_subs_cases t dbOk sys req now with h | ⟨newSub, hpend, h⟩
      · simp only [statusAllValid, stepSys, applyOp, h]
        exact hsys
      · simp only [statusAllValid, stepSys, applyOp, h, List.all_append]
        simp only [statusAllValid] at hsys
        rw [Bool.and_eq_true]
        exact ⟨hsys, by simp [hpend, statusValid]⟩
  | updateStatus id status now =>
      exact updateStatus_preserves_valid t sys id status now hop hsys
  | postChat req now =>
      simp only [statusAllValid, stepSys, applyOp, postChat_subs]
      exact hsys
  | adminReply id message now =>
      simp only [statusAllValid, stepSys, applyOp, adminReply_subs]
      exact hsys

theorem runOps_preserves_valid :
    ∀ (ops : List Op) (t : Transport) (sys : Sys),
      statusAllValid sys = true → ops.all opStatusValid = true →
      statusAllValid (runOps t sys ops) = true
  | [], _, _, hsys, _ => hsys
  | op :: ops, t, sys, hsys, hops => by
      have h1 : opStatusValid op = true := by
        simp [List.all_cons] at hops
        exact hops.1
      have h2 : ops.all opStatusValid = true := by
        simp [List.all_cons] at hops
        exact List.all_eq_true.mpr (fun x hx => hops.2 x hx)
      have := runOps_preserves_valid ops t (stepSys t sys op)
        (step_preserves_valid t sys op h1 hsys) h2
      simpa [runOps, List.foldl] using this

/-- C4 (amended): every reachable state whose updateStatus calls all used
an enum value has only enum statuses; every submission added by submit is
created with status `pending`; and no operation other than updateStatus
modifies an existing submission (the others at most append, so statuses
only change through updateStatus).  Without the enum restriction on
updateStatus the invariant fails, because `findByIdAndUpdate` runs no
validators (see the counterexample). -/
theorem c4_status_machine :
    (∀ (t : Transport) (ops : List Op), ops.all opStatusValid = true →
        statusAllValid (runOps t initSys ops) = true)
    ∧ (∀ (t : Transport) (dbOk : Bool) (sys : Sys) (req : SubmitReq) (now : Nat),
        ∀ s ∈ (handleSubmitGiftcard t dbOk sys req now).sys.store.subs,
          s ∈ sys.store.subs ∨ s.status = "pending")
    ∧ (∀ (t : Transport) (sys : Sys) (op : Op), isUpdateStatus op = false →
        ∃ tail, (stepSys t sys op).store.subs = sys.store.subs ++ tail) := by
  refine ⟨?_, ?_, ?_⟩
  · intro t ops hops
    exact runOps_preserves_valid ops t initSys rfl hops
  · intro t dbOk sys req now s hs
    rcases submit_subs_cases t dbOk sys req now with h | ⟨newSub, hpend, h⟩
    · rw [h] at hs
      exact Or.inl hs
    · rw [h] at hs
      rcases List.mem_append.mp hs with h1 | h1
      · exact Or.inl h1
      · right
        rw [List.mem_singleton.mp h1]
        exact hpend
  · intro t sys op hop
    cases op with
    | submitGiftcard req dbOk now =>
        rcases submit_subs_cases t dbOk sys req now with h | ⟨newSub, _, h⟩
        · exact ⟨[], by simpa [stepSys, applyOp] using h⟩
        · exact ⟨[newSub], by simpa [stepSys, applyOp] using h⟩
    | updateStatus id status now => simp [isUpdateStatus] at hop
    | postChat req now =>
        exact ⟨[], by simpa [stepSys, applyOp] using postChat_subs t sys req now⟩
    | adminReply id message now =>
        exact ⟨[], by simpa [stepSys, applyOp] using adminReply_subs t sys id message now⟩

/-- Witness for C4 at concrete inputs: a submit followed by a valid status
update keeps every status in the enum; the freshly created submission has
status `pending`; and a chat post leaves the submissions list an unchanged
prefix of itself. -/
theorem c4_status_machine_witness :
    statusAllValid (runOps Transport.healthy initSys
        [Op.submitGiftcard janeSubmitReq true 10, Op.updateStatus 0 "verified" 20]) = true
    ∧ (janeStoredSub ∈ stagedSys.store.subs ∨ janeStoredSub.status = "pending")
    ∧ (∃ tail, (stepSys Transport.healthy initSys (Op.postChat janeChatReq 1)).store.subs
        = initSys.store.subs ++ tail) := by
  refine ⟨?_, ?_, ?_⟩
  · exact c4_status_machine.1 Transport.healthy
      [Op.submitGiftcard janeSubmitReq true 10, Op.updateStatus 0 "verified" 20] (by decide)
  · apply c4_status_machine.2.1 Transport.healthy true stagedSys janeSubmitReq 10
    show janeStoredSub ∈
      (handleSubmitGiftcard Transport.healthy true stagedSys janeSubmitReq 10).sys.store.subs
    have h : (handleSubmitGiftcard Transport.healthy true stagedSys
        janeSubmitReq 10).sys.store.subs = [janeStoredSub] := rfl
    rw [h]
    exact List.mem_singleton.mpr rfl
  · exact c4_status_machine.2.2 Transport.healthy initSys (Op.postChat janeChatReq 1) rfl
